import Mathlib

/-!
Verification development for the recording-session coordinator in
src/src/components/recording/VideoRecorder.tsx.

The component state (React useState hooks and the hook-provided refs) is
embedded as one explicit record, and each handler (scanForCameras,
startRecording, stopRecording) becomes a pure state-transition function.
External, independently failing collaborators (built-in camera enumeration,
USB bus enumeration, camera capture start and stop, GPS acquisition) are,
at each call site, passed in as explicit outcome parameters, so a single
run of a handler is a function of the pre-state and the outcomes the
collaborators produced during that run.

The hooks useGPS, useVideoRecording and useVideoUpload are not part of the
source tree; their operations are modelled from the specification, and each
such definition carries a doc comment saying so.
-/

/-- Kind tag of a merged camera entry: the source maps built-in devices to
the string tag "built-in" and USB devices to "usb". -/
inductive CameraKind where
  | builtIn
  | usb
deriving Repr, DecidableEq

/-- One entry of the merged camera list built by scanForCameras:
`{ id, name, type }`. -/
structure CameraEntry where
  id : String
  name : String
  kind : CameraKind
deriving Repr, DecidableEq

/-- A descriptor returned by the built-in camera driver enumeration
(`Camera.getAvailableCameras()`): the source reads `device.id` and
`device.name`. -/
structure BuiltInDescriptor where
  id : String
  name : String
deriving Repr, DecidableEq

/-- A descriptor returned by the USB bus enumeration
(`UsbManager.getDeviceList()`): the source reads `device.deviceId`,
`device.getDeviceClass()` and `device.getProductName()`. -/
structure UsbDescriptor where
  deviceId : String
  deviceClass : Nat
  productName : String
deriving Repr, DecidableEq

/-- One GPS fix. Coordinates are kept abstract as integers scaled by the
caller; none of the coordinator logic computes with them, it only moves the
list around. -/
structure GpsFix where
  timestamp : Nat
  latitude : Int
  longitude : Int
  accuracyMeters : Option Int
deriving Repr, DecidableEq

/-- The finished recording payload the camera subsystem hands back from a
successful `stopRecording()` call. -/
structure Artifact where
  handle : String
  sizeBytes : Nat
deriving Repr, DecidableEq

/-- One call to uploadRecording, as observed by the upload pipeline:
the artifact, the GPS log captured for it, and the display duration passed
as `getRecordingDuration()`. -/
structure UploadRecord where
  artifact : Artifact
  gpsLogContent : List GpsFix
  durationSeconds : Nat
deriving Repr, DecidableEq

/-- The caps the source passes to `cameraRef.current.startRecording`:
`maxDuration` in seconds and `maxFileSize` in bytes. -/
structure CaptureCaps where
  maxDuration : Nat
  maxFileSize : Nat
deriving Repr, DecidableEq

/-- The literal options object of the source:
`{ maxDuration: 300, maxFileSize: 50 * 1024 * 1024 }`. -/
def recordingOptions : CaptureCaps :=
  { maxDuration := 300, maxFileSize := 50 * 1024 * 1024 }

/-- The coordinator state: the useState cells of the component
(`cameras`, `selectedCamera`, `loading`), the recording state exposed by
useVideoRecording (`isRecording`, `recordingTime`, and whether the interval
timer is running), the GPS state exposed by useGPS (`gpsEnabled`,
`gpsSampling`, `hasGpsError`, and the accumulated log behind `gpsLogRef`),
whether the camera capture pipeline is active, the list of uploads
submitted so far, and the observable console/alert output. -/
structure CoordState where
  cameras : List CameraEntry
  selectedCamera : Option CameraEntry
  isRecording : Bool
  recordingTime : Nat
  timerRunning : Bool
  loading : Bool
  gpsEnabled : Bool
  gpsSampling : Bool
  hasGpsError : Bool
  gpsLog : List GpsFix
  cameraCapturing : Bool
  uploads : List UploadRecord
  alerts : List String
  consoleWarnings : List String
  consoleErrors : List String
deriving Repr, DecidableEq

/-- The merged list scanForCameras builds: built-in devices first, mapped to
`{ id: device.id, name: device.name, type: built-in }`, then the USB
devices kept by the filter `device.getDeviceClass() === 6`, mapped to
`{ id: device.deviceId, name: USB Camera (productName), type: usb }`. -/
def mergeCameras (devices : List BuiltInDescriptor)
    (usbDevices : List UsbDescriptor) : List CameraEntry :=
  (devices.map fun d => { id := d.id, name := d.name, kind := CameraKind.builtIn })
    ++ ((usbDevices.filter fun d => d.deviceClass == 6).map
      fun d => { id := d.deviceId
                 name := "USB Camera (" ++ d.productName ++ ")"
                 kind := CameraKind.usb })

/-- True when an external enumeration produced a result rather than
failing. -/
def enumOk {α : Type} : Except String α → Bool
  | Except.ok _ => true
  | Except.error _ => false

/-- scanForCameras. The source first awaits
`Camera.getAvailableCameras()`; if that rejects, the async function aborts
and no state is touched. It then chains `UsbManager.getDeviceList().then`;
if that enumeration rejects, the `then` callback never runs and no state is
touched. When both succeed the callback installs the merged list with
`setCameras(allCameras)` and, only when the merged list is non-empty, runs
`setSelectedCamera(allCameras[0])`. -/
def scanForCameras (s : CoordState)
    (builtInResult : Except String (List BuiltInDescriptor))
    (usbResult : Except String (List UsbDescriptor)) : CoordState :=
  match builtInResult with
  | Except.error _ => s
  | Except.ok devices =>
    match usbResult with
    | Except.error _ => s
    | Except.ok usbDevices =>
      let allCameras := mergeCameras devices usbDevices
      let s1 := { s with cameras := allCameras }
      if 0 < allCameras.length then
        { s1 with selectedCamera := allCameras.head? }
      else
        s1

/-- Modelled from the spec: `startGpsTracking` of the useGPS hook, which is
not under src/. The spec: start returns a boolean (true = sampling began);
GPS unavailability or permission denial is non-fatal and is surfaced as an
explicit error flag rather than aborting. On success sampling becomes
active and live GPS health is exposed; on failure the sampler returns
directly to Stopped with the error flag set. The external acquisition
outcome is the boolean parameter. -/
def startGpsTracking (s : CoordState) (acquired : Bool) : CoordState × Bool :=
  if acquired then
    ({ s with gpsSampling := true, gpsEnabled := true, hasGpsError := false }, true)
  else
    ({ s with gpsEnabled := false, hasGpsError := true }, false)

/-- Modelled from the spec: `stopGpsTracking` of the useGPS hook, which is
not under src/. The spec: stop freezes and returns the accumulated log,
then clears internal state for reuse; calling it while already stopped
returns an empty sequence rather than an error. -/
def stopGpsTracking (s : CoordState) : CoordState × List GpsFix :=
  ({ s with gpsSampling := false, gpsLog := [] }, s.gpsLog)

/-- Modelled from the spec: `uploadRecording` of the useVideoUpload hook,
which is not under src/. The hook is constructed with `gpsLogRef`,
`stopGpsTracking` and the GPS error flags; the source calls it as
`uploadRecording([data], setLoading, setIsRecording, setRecordingTime,
getRecordingDuration())`. The spec: the handoff stops GPS sampling and
captures the frozen log, serializes it (an empty log is valid), submits the
artifact plus log, and upload completion resets the session to Idle
(isRecording false, recording time cleared, loading cleared). -/
def uploadRecording (s : CoordState) (data : Artifact)
    (duration : Nat) : CoordState :=
  let stopped := stopGpsTracking s
  let s1 := stopped.1
  { s1 with
    uploads := s1.uploads ++
      [{ artifact := data, gpsLogContent := stopped.2, durationSeconds := duration }]
    isRecording := false
    recordingTime := 0
    loading := false }

/-- startRecording. The source: if no camera is selected, alert and return.
Otherwise call `startGpsTracking()` and only console.warn when it reports
false. Then, in the try block, `setIsRecording(true)`, `startTimer()`, and
await `cameraRef.current.startRecording(recordingOptions)`; if camera start
throws, the catch block runs `console.error`, `stopGpsTracking()`
(its returned log discarded), `setIsRecording(false)`, `stopTimer()`.
`gpsAcquired` is the outcome of GPS acquisition and `cameraStartOk` the
outcome of the awaited camera start. -/
def startRecording (s : CoordState) (gpsAcquired : Bool)
    (cameraStartOk : Bool) : CoordState :=
  match s.selectedCamera with
  | none => { s with alerts := s.alerts ++ ["Please select a camera"] }
  | some _ =>
    let g := startGpsTracking s gpsAcquired
    let s1 :=
      if g.2 then g.1
      else { g.1 with
              consoleWarnings :=
                g.1.consoleWarnings ++ ["GPS tracking could not be started"] }
    let s2 := { s1 with isRecording := true, timerRunning := true }
    if cameraStartOk then
      { s2 with cameraCapturing := true }
    else
      let s3 := { s2 with
                   consoleErrors := s2.consoleErrors ++ ["Failed to start recording"] }
      let s4 := (stopGpsTracking s3).1
      { s4 with isRecording := false, timerRunning := false }

/-- stopRecording. The source awaits `cameraRef.current.stopRecording()`;
on success it runs `stopTimer()` and then awaits `uploadRecording` with the
returned data and `getRecordingDuration()`. If the camera stop call
rejects, the catch block only logs `console.error`; no other state is
touched. `cameraStopResult` is the outcome of the awaited camera stop. -/
def stopRecording (s : CoordState)
    (cameraStopResult : Except String Artifact) : CoordState :=
  match cameraStopResult with
  | Except.error _ =>
    { s with consoleErrors := s.consoleErrors ++ ["Failed to stop recording"] }
  | Except.ok data =>
    let s1 := { s with timerRunning := false, cameraCapturing := false }
    uploadRecording s1 data s1.recordingTime

/-- What the coordinator itself executes when the awaited
`cameraRef.current.startRecording` promise resolves because a capture cap
(maxDuration or maxFileSize) ended the capture: the try block contains no
statement after the await, so the camera capture ends and no coordinator
code runs at all. -/
def onCaptureCapReached (s : CoordState) : CoordState :=
  { s with cameraCapturing := false }

/-- The externally visible session events, in the order the handlers issue
them. -/
inductive SessionEvent where
  | gpsStart
  | timerStart
  | cameraStart
  | cameraStop
  | timerStop
  | gpsStop
  | uploadSubmit
deriving Repr, DecidableEq

/-- Index of the first occurrence of an event in a trace (length of the
trace when absent). -/
def idxOfEvent : List SessionEvent → SessionEvent → Nat
  | [], _ => 0
  | e :: t, a => if e = a then 0 else idxOfEvent t a + 1

/-- The order in which startRecording issues its collaborator calls:
nothing when no device is selected; otherwise GPS acquisition first
(sampling begins there when acquisition succeeds), then the timer start,
then the awaited camera start; when the camera start throws, the catch
block stops GPS sampling and then the timer. -/
def startRecordingTrace (deviceSelected gpsAcquired cameraStartOk : Bool) :
    List SessionEvent :=
  if deviceSelected then
    (if gpsAcquired then [SessionEvent.gpsStart] else [])
      ++ [SessionEvent.timerStart, SessionEvent.cameraStart]
      ++ (if cameraStartOk then [] else [SessionEvent.gpsStop, SessionEvent.timerStop])
  else []

/-- The order in which stopRecording issues its collaborator calls: the
awaited camera stop first; on success the timer stop, then (inside the
upload handoff) the GPS stop that captures the frozen log, then the upload
submission; when the camera stop rejects, nothing further runs. -/
def stopRecordingTrace (cameraStopOk : Bool) : List SessionEvent :=
  if cameraStopOk then
    [SessionEvent.cameraStop, SessionEvent.timerStop,
     SessionEvent.gpsStop, SessionEvent.uploadSubmit]
  else
    [SessionEvent.cameraStop]

/-- A built-in camera as the driver reports it. -/
def backDescriptor : BuiltInDescriptor := { id := "builtin-0", name := "Back Camera" }

/-- The merged entry scanForCameras builds from backDescriptor. -/
def backCamera : CameraEntry :=
  { id := "builtin-0", name := "Back Camera", kind := CameraKind.builtIn }

/-- An imaging-class USB device. -/
def usbCam1 : UsbDescriptor := { deviceId := "usb-1", deviceClass := 6, productName := "Cam" }

/-- The merged entry scanForCameras builds from usbCam1. -/
def usbEntry1 : CameraEntry :=
  { id := "usb-1", name := "USB Camera (Cam)", kind := CameraKind.usb }

/-- An idle coordinator with one discovered and selected camera and no
pending output. -/
def idleState : CoordState :=
  { cameras := [backCamera]
    selectedCamera := some backCamera
    isRecording := false
    recordingTime := 0
    timerRunning := false
    loading := false
    gpsEnabled := false
    gpsSampling := false
    hasGpsError := false
    gpsLog := []
    cameraCapturing := false
    uploads := []
    alerts := []
    consoleWarnings := []
    consoleErrors := [] }

/-- An idle coordinator with no camera selected. -/
def noSelectionState : CoordState := { idleState with selectedCamera := none }

/-- A coordinator whose previous scan selected a camera that the next scan
will no longer report. -/
def prevState : CoordState :=
  { idleState with
    cameras := [{ id := "old-cam", name := "Old Camera", kind := CameraKind.builtIn }]
    selectedCamera := some { id := "old-cam", name := "Old Camera", kind := CameraKind.builtIn } }

/-- The reachable state after a successful start in which GPS acquisition
failed: recording is active while GPS sampling never began. -/
def activeNoGpsState : CoordState := startRecording idleState false true

/-- The reachable state after a fully successful start: recording active,
timer running, GPS sampling active. -/
def activeState : CoordState := startRecording idleState true true

/-- A finished clip as the camera subsystem returns it. -/
def sampleArtifact : Artifact := { handle := "clip-0", sizeBytes := 1024 }

/-- C1, counterexample. In the reachable state where a recording is already
in progress (started after a failed GPS acquisition) and a camera is
selected, a further startRecording call is not rejected: it changes the
state (GPS sampling begins), refuting the claim that a call during a
non-Idle session leaves everything unchanged. -/
theorem C1_counterexample :
    activeNoGpsState.isRecording = true ∧
    activeNoGpsState.selectedCamera ≠ none ∧
    startRecording activeNoGpsState true true ≠ activeNoGpsState := by
  decide

/-- C1, amended: startRecording is rejected only for a missing device
selection, in which case the session state, timer, GPS sampler and camera
are left unchanged and only an alert is emitted; the function itself never
checks whether a session is already in progress. -/
theorem C1_amended (s : CoordState) (g c : Bool) (h : s.selectedCamera = none) :
    startRecording s g c = { s with alerts := s.alerts ++ ["Please select a camera"] } := by
  simp [startRecording, h]

/-- C1, witness for the amended theorem at the concrete unselected state. -/
theorem C1_amended_witness :
    noSelectionState.selectedCamera = none ∧
    startRecording noSelectionState true true =
      { noSelectionState with alerts := noSelectionState.alerts ++ ["Please select a camera"] } :=
  ⟨rfl, C1_amended noSelectionState true true rfl⟩

/-- C2: when a device is selected, GPS sampling began, and the camera start
then fails, the catch block leaves the session back at Idle with the timer
stopped, GPS sampling stopped and the partial GPS log discarded. -/
theorem C2_rollback (s : CoordState) (c : CameraEntry) (h : s.selectedCamera = some c) :
    (startRecording s true false).isRecording = false ∧
    (startRecording s true false).timerRunning = false ∧
    (startRecording s true false).gpsSampling = false ∧
    (startRecording s true false).gpsLog = [] := by
  simp [startRecording, startGpsTracking, stopGpsTracking, h]

/-- C2, witness at the concrete idle state. -/
theorem C2_rollback_witness :
    idleState.selectedCamera = some backCamera ∧
    ((startRecording idleState true false).isRecording = false ∧
     (startRecording idleState true false).timerRunning = false ∧
     (startRecording idleState true false).gpsSampling = false ∧
     (startRecording idleState true false).gpsLog = []) :=
  ⟨rfl, C2_rollback idleState backCamera rfl⟩

/-- C3: every usb-kind entry of the camera list a successful scan installs
comes from a USB descriptor whose device class is 6 (imaging); a
non-imaging USB peripheral never appears as a selectable camera. -/
theorem C3_usb_filter (s : CoordState) (ds : List BuiltInDescriptor)
    (us : List UsbDescriptor) (e : CameraEntry)
    (he : e ∈ (scanForCameras s (Except.ok ds) (Except.ok us)).cameras)
    (hk : e.kind = CameraKind.usb) :
    ∃ u ∈ us, u.deviceClass = 6 ∧ e.id = u.deviceId := by
  have hc : (scanForCameras s (Except.ok ds) (Except.ok us)).cameras = mergeCameras ds us := by
    simp only [scanForCameras]
    split <;> rfl
  rw [hc] at he
  simp only [mergeCameras, List.mem_append, List.mem_map, List.mem_filter] at he
  rcases he with ⟨d, _, rfl⟩ | ⟨u, ⟨hu, hcl⟩, rfl⟩
  · simp at hk
  · exact ⟨u, hu, by simpa using hcl, rfl⟩

/-- C3, witness: the usb-kind entry produced from the concrete imaging
device usbCam1 indeed traces back to a class-6 USB descriptor. -/
theorem C3_usb_filter_witness :
    ∃ u ∈ [usbCam1], u.deviceClass = 6 ∧ usbEntry1.id = u.deviceId :=
  C3_usb_filter idleState [] [usbCam1] usbEntry1 (by decide) rfl

/-- C4, counterexample. A scan whose non-empty result does not contain the
previously selected id neither clears the selection nor retains it: the
selection silently becomes the first device of the new list, refuting the
claim that it is cleared and the caller notified. -/
theorem C4_counterexample :
    prevState.selectedCamera =
      some { id := "old-cam", name := "Old Camera", kind := CameraKind.builtIn } ∧
    (∀ e ∈ (scanForCameras prevState (Except.ok [backDescriptor]) (Except.ok [])).cameras,
      e.id ≠ "old-cam") ∧
    (scanForCameras prevState (Except.ok [backDescriptor]) (Except.ok [])).selectedCamera ≠ none ∧
    (scanForCameras prevState (Except.ok [backDescriptor]) (Except.ok [])).selectedCamera ≠
      prevState.selectedCamera := by
  decide

/-- C4, amended: on every successful scan with a non-empty merged result
the selection is unconditionally replaced by the first device of the new
list, whether or not the previous selection is still present, and no
selection-loss notification exists; only an empty result leaves the
previous selection in place. -/
theorem C4_amended (s : CoordState) (ds : List BuiltInDescriptor)
    (us : List UsbDescriptor) (h : mergeCameras ds us ≠ []) :
    (scanForCameras s (Except.ok ds) (Except.ok us)).selectedCamera =
      (mergeCameras ds us).head? := by
  have hl : 0 < (mergeCameras ds us).length := List.length_pos.mpr h
  simp [scanForCameras, hl]

/-- C4, witness for the amended theorem at the concrete stale-selection
state. -/
theorem C4_amended_witness :
    mergeCameras [backDescriptor] [] ≠ [] ∧
    (scanForCameras prevState (Except.ok [backDescriptor]) (Except.ok [])).selectedCamera =
      (mergeCameras [backDescriptor] []).head? :=
  ⟨by decide, C4_amended prevState [backDescriptor] [] (by decide)⟩

/-- C5: when either source enumeration fails, scanForCameras changes
nothing: the pre-existing device list (indeed the whole state) is left
untouched and no partial merged list is installed. -/
theorem C5_scan_failure (s : CoordState)
    (b : Except String (List BuiltInDescriptor))
    (u : Except String (List UsbDescriptor))
    (h : enumOk b = false ∨ enumOk u = false) :
    scanForCameras s b u = s := by
  cases b with
  | error e => rfl
  | ok ds =>
    cases u with
    | error e => rfl
    | ok us => simp [enumOk] at h

/-- C5, witness: a failed built-in enumeration leaves the concrete idle
state unchanged. -/
theorem C5_scan_failure_witness :
    scanForCameras idleState (Except.error "enumeration failed") (Except.ok []) = idleState :=
  C5_scan_failure idleState (Except.error "enumeration failed") (Except.ok []) (Or.inl rfl)

/-- C6: the caps 300 seconds and 50 MB are passed to the camera at start,
but when a cap ends the capture the coordinator executes nothing: in the
reachable active state, the cap path leaves isRecording true, the timer
running, GPS sampling active and nothing uploaded, whereas the manual
stopRecording path stops the timer, stops GPS sampling and submits an
upload — the two paths are not the same. -/
theorem C6_cap_divergence :
    recordingOptions.maxDuration = 300 ∧
    recordingOptions.maxFileSize = 50 * 1024 * 1024 ∧
    activeState.isRecording = true ∧
    (onCaptureCapReached activeState).isRecording = true ∧
    (onCaptureCapReached activeState).timerRunning = true ∧
    (onCaptureCapReached activeState).gpsSampling = true ∧
    (onCaptureCapReached activeState).uploads = [] ∧
    (stopRecording activeState (Except.ok sampleArtifact)).timerRunning = false ∧
    (stopRecording activeState (Except.ok sampleArtifact)).gpsSampling = false ∧
    (stopRecording activeState (Except.ok sampleArtifact)).uploads ≠ [] := by
  decide

/-- C7, counterexample. stopRecording called on the concrete idle state
(where the camera stop call rejects because no capture is active) is
surfaced through the error path — a console error is recorded — refuting
the claim that the call returns a nothing-to-stop signal and is not an
error. -/
theorem C7_counterexample :
    idleState.isRecording = false ∧
    (stopRecording idleState (Except.error "no active recording")).consoleErrors ≠
      idleState.consoleErrors := by
  decide

/-- C7, amended: stopRecording while the session is Idle (the camera stop
call rejects) leaves the session state, timer, GPS state and uploads
unchanged — only a console error is appended; there is no nothing-to-stop
signal, the call is reported as an error. -/
theorem C7_amended (s : CoordState) (e : String) (_h : s.isRecording = false) :
    stopRecording s (Except.error e) =
      { s with consoleErrors := s.consoleErrors ++ ["Failed to stop recording"] } :=
  rfl

/-- C7, witness for the amended theorem at the concrete idle state. -/
theorem C7_amended_witness :
    idleState.isRecording = false ∧
    stopRecording idleState (Except.error "no active recording") =
      { idleState with
        consoleErrors := idleState.consoleErrors ++ ["Failed to stop recording"] } :=
  ⟨rfl, C7_amended idleState "no active recording" rfl⟩

/-- C8: a failed GPS acquisition is non-fatal: the session still becomes
active (camera capturing, isRecording true) with gpsEnabled false and
hasGpsError true, and a subsequent successful stop uploads the artifact
with an empty GPS log and resets isRecording. -/
theorem C8_gps_nonfatal (s : CoordState) (c : CameraEntry) (a : Artifact)
    (hc : s.selectedCamera = some c) (hl : s.gpsLog = []) :
    (startRecording s false true).isRecording = true ∧
    (startRecording s false true).gpsEnabled = false ∧
    (startRecording s false true).hasGpsError = true ∧
    (startRecording s false true).cameraCapturing = true ∧
    (stopRecording (startRecording s false true) (Except.ok a)).uploads =
      s.uploads ++ [{ artifact := a, gpsLogContent := [], durationSeconds := s.recordingTime }] ∧
    (stopRecording (startRecording s false true) (Except.ok a)).isRecording = false := by
  simp [startRecording, startGpsTracking, stopRecording, uploadRecording, stopGpsTracking, hc, hl]

/-- C8, witness at the concrete idle state and sample artifact. -/
theorem C8_gps_nonfatal_witness :
    idleState.selectedCamera = some backCamera ∧
    (stopRecording (startRecording idleState false true) (Except.ok sampleArtifact)).uploads =
      idleState.uploads ++
        [{ artifact := sampleArtifact, gpsLogContent := [],
           durationSeconds := idleState.recordingTime }] :=
  ⟨rfl, (C8_gps_nonfatal idleState backCamera sampleArtifact rfl rfl).2.2.2.2.1⟩

/-- C9: in the call order of the handlers, GPS sampling begins strictly
before the camera start in every session with a selected device and
acquired GPS (whether or not the camera start succeeds), and on a
successful stop the GPS stop comes strictly after the camera stop — so the
sampling window spans the capture window. -/
theorem C9_gps_spans_recording :
    (∀ camOk : Bool,
      SessionEvent.gpsStart ∈ startRecordingTrace true true camOk ∧
      SessionEvent.cameraStart ∈ startRecordingTrace true true camOk ∧
      idxOfEvent (startRecordingTrace true true camOk) SessionEvent.gpsStart <
        idxOfEvent (startRecordingTrace true true camOk) SessionEvent.cameraStart) ∧
    SessionEvent.cameraStop ∈ stopRecordingTrace true ∧
    SessionEvent.gpsStop ∈ stopRecordingTrace true ∧
    idxOfEvent (stopRecordingTrace true) SessionEvent.cameraStop <
      idxOfEvent (stopRecordingTrace true) SessionEvent.gpsStop := by
  refine ⟨fun camOk => ?_, by decide, by decide, by decide⟩
  cases camOk <;> decide

/-- C10: a successful scan whose merged result is empty installs the empty
device list while leaving the selected camera untouched, so the selection
may afterwards reference a device absent from the current list. -/
theorem C10_empty_scan (s : CoordState) (ds : List BuiltInDescriptor)
    (us : List UsbDescriptor) (h : mergeCameras ds us = []) :
    (scanForCameras s (Except.ok ds) (Except.ok us)).cameras = [] ∧
    (scanForCameras s (Except.ok ds) (Except.ok us)).selectedCamera = s.selectedCamera := by
  simp [scanForCameras, h]

/-- C10, witness: scanning with both sources empty clears the list of the
concrete idle state while its selection still references backCamera. -/
theorem C10_empty_scan_witness :
    (scanForCameras idleState (Except.ok []) (Except.ok [])).cameras = [] ∧
    (scanForCameras idleState (Except.ok []) (Except.ok [])).selectedCamera =
      idleState.selectedCamera :=
  C10_empty_scan idleState [] [] rfl
